import Mathlib

/-!
Verification of the muda-win menu library core against its specification.

The development shallowly embeds the event-delivery sink of `src/lib.rs`
(`MENU_CHANNEL`, `MENU_EVENT_HANDLER`, `MenuEvent::set_event_handler`,
`MenuEvent::send`, `MenuEvent::receiver`), the `MenuItemKind` downcasting
API of `src/lib.rs`, and the container API of `src/menu.rs`
(`append` / `prepend` / `insert` / `remove` / `remove_at` / `items` and the
per-window attachment operations).

The crate's `platform_impl`, `items`, `menu_id` and `util` modules are not
part of the sources under verification; where `src/menu.rs` delegates to
them, the missing behaviour is modelled from the specification (each such
definition carries a doc comment starting with `Modelled from the spec:`).
The `crossbeam_channel` unbounded channel is an external dependency and is
embedded by its documented FIFO semantics as a list-backed queue.
-/

/-- Modelled from the spec: `MenuId` (crate module `menu_id`, not under the
verified sources) is an immutable string-like identity token. -/
structure MenuId where
  val : String
deriving DecidableEq, Repr

/-- Modelled from the spec: a `MenuItem` variant handle; only its `MenuId`
identity is relevant to child tracking and event delivery, so the other
display state (text, enabled flag, accelerator) is not represented. -/
structure MenuItem where
  id : MenuId
deriving DecidableEq, Repr

/-- Modelled from the spec: a `Submenu` variant handle, identity part only. -/
structure Submenu where
  id : MenuId
deriving DecidableEq, Repr

/-- Modelled from the spec: a `PredefinedMenuItem` variant handle, identity
part only. -/
structure PredefinedMenuItem where
  id : MenuId
deriving DecidableEq, Repr

/-- Modelled from the spec: a `CheckMenuItem` variant handle, identity part
only. -/
structure CheckMenuItem where
  id : MenuId
deriving DecidableEq, Repr

/-- Modelled from the spec: an `IconMenuItem` variant handle, identity part
only. -/
structure IconMenuItem where
  id : MenuId
deriving DecidableEq, Repr

/-- The closed sum of the five item variants, from `src/lib.rs`
(`pub enum MenuItemKind`). -/
inductive MenuItemKind where
  | MenuItem (i : MenuItem)
  | Submenu (i : Submenu)
  | Predefined (i : PredefinedMenuItem)
  | Check (i : CheckMenuItem)
  | Icon (i : IconMenuItem)
deriving DecidableEq, Repr

/-- `MenuItemKind::id` from `src/lib.rs`: the identifier of the wrapped
variant. -/
def MenuItemKind.id : MenuItemKind → MenuId
  | .MenuItem i => i.id
  | .Submenu i => i.id
  | .Predefined i => i.id
  | .Check i => i.id
  | .Icon i => i.id

/-- `MenuItemKind::as_menuitem` from `src/lib.rs`: safe downcast. -/
def as_menuitem : MenuItemKind → Option MenuItem
  | .MenuItem i => some i
  | _ => none

/-- `MenuItemKind::as_menuitem_unchecked` from `src/lib.rs`; the `panic!`
branch is embedded as `Except.error` carrying the panic message. -/
def as_menuitem_unchecked : MenuItemKind → Except String MenuItem
  | .MenuItem i => Except.ok i
  | _ => Except.error "Not a MenuItem"

/-- `MenuItemKind::as_submenu` from `src/lib.rs`: safe downcast. -/
def as_submenu : MenuItemKind → Option Submenu
  | .Submenu i => some i
  | _ => none

/-- `MenuItemKind::as_submenu_unchecked` from `src/lib.rs`; `panic!` is
embedded as `Except.error`. -/
def as_submenu_unchecked : MenuItemKind → Except String Submenu
  | .Submenu i => Except.ok i
  | _ => Except.error "Not a Submenu"

/-- `MenuItemKind::as_predefined_menuitem` from `src/lib.rs`: safe
downcast. -/
def as_predefined_menuitem : MenuItemKind → Option PredefinedMenuItem
  | .Predefined i => some i
  | _ => none

/-- `MenuItemKind::as_predefined_menuitem_unchecked` from `src/lib.rs`;
`panic!` is embedded as `Except.error`. -/
def as_predefined_menuitem_unchecked :
    MenuItemKind → Except String PredefinedMenuItem
  | .Predefined i => Except.ok i
  | _ => Except.error "Not a PredefinedMenuItem"

/-- `MenuItemKind::as_check_menuitem` from `src/lib.rs`: safe downcast. -/
def as_check_menuitem : MenuItemKind → Option CheckMenuItem
  | .Check i => some i
  | _ => none

/-- `MenuItemKind::as_check_menuitem_unchecked` from `src/lib.rs`; `panic!`
is embedded as `Except.error`. -/
def as_check_menuitem_unchecked : MenuItemKind → Except String CheckMenuItem
  | .Check i => Except.ok i
  | _ => Except.error "Not a CheckMenuItem"

/-- `MenuItemKind::as_icon_menuitem` from `src/lib.rs`: safe downcast. -/
def as_icon_menuitem : MenuItemKind → Option IconMenuItem
  | .Icon i => some i
  | _ => none

/-- `MenuItemKind::as_icon_menuitem_unchecked` from `src/lib.rs`; `panic!`
is embedded as `Except.error`. -/
def as_icon_menuitem_unchecked : MenuItemKind → Except String IconMenuItem
  | .Icon i => Except.ok i
  | _ => Except.error "Not an IconMenuItem"

/-- A menu event, from `src/lib.rs` (`pub struct MenuEvent`): just the id of
the item that was activated. -/
structure MenuEvent where
  id : MenuId
deriving DecidableEq, Repr

/-- The process-wide event-sink state of `src/lib.rs`, parameterized by an
abstract handler type `H` (handlers are opaque closures in the source).

* `handlerSlot` embeds `MENU_EVENT_HANDLER : OnceLock<Option<MenuEventHandler>>`:
  `none` means the `OnceLock` is unset, `some v` means it was committed with
  value `v` (itself an `Option H`).
* `queue` embeds the pending buffer of the unbounded FIFO channel
  `MENU_CHANNEL`: events sent and not yet received.
* `handled` records the events passed to a handler closure, in call order,
  paired with the handler that received them. -/
structure SinkState (H : Type) where
  handlerSlot : Option (Option H)
  queue : List MenuEvent
  handled : List (H × MenuEvent)
deriving DecidableEq, Repr

/-- The sink state at process start: `OnceLock` unset, channel empty. -/
def initialSink {H : Type} : SinkState H :=
  { handlerSlot := none, queue := [], handled := [] }

/-- `MenuEvent::set_event_handler` from `src/lib.rs`. Both branches of the
source call `MENU_EVENT_HANDLER.set` (with `Some(boxed)` or `None`), which
commits only when the `OnceLock` is unset; the returned value mirrors the
source's final `match MENU_EVENT_HANDLER.get()`. -/
def MenuEvent.set_event_handler {H : Type} (s : SinkState H) (f : Option H) :
    SinkState H × Option (Option H) :=
  let slot : Option (Option H) :=
    match s.handlerSlot with
    | none => some f
    | some v => some v
  let ret : Option (Option H) :=
    match slot with
    | some (some h) => some (some h)
    | _ => none
  ({ s with handlerSlot := slot }, ret)

/-- `MenuEvent::send` from `src/lib.rs`:
`MENU_EVENT_HANDLER.get_or_init(|| None)` commits `None` when the slot is
still unset; a stored handler receives the event, otherwise the event goes
to the channel. -/
def MenuEvent.send {H : Type} (s : SinkState H) (event : MenuEvent) : SinkState H :=
  let slot : Option (Option H) :=
    match s.handlerSlot with
    | none => some none
    | some v => some v
  match slot with
  | some (some handler) =>
      { s with handlerSlot := slot, handled := s.handled ++ [(handler, event)] }
  | _ =>
      { s with handlerSlot := slot, queue := s.queue ++ [event] }

/-- `Receiver::try_recv` on the channel exposed by `MenuEvent::receiver`:
pops the oldest pending event, or reports nothing available, without
blocking. -/
def MenuEventReceiver.try_recv {H : Type} (s : SinkState H) :
    Option MenuEvent × SinkState H :=
  match s.queue with
  | [] => (none, s)
  | e :: rest => (some e, { s with queue := rest })

/-- One externally visible operation on the event sink. -/
inductive SinkOp (H : Type) where
  | setHandler (f : Option H)
  | send (e : MenuEvent)
deriving DecidableEq

/-- Apply one sink operation to the sink state. -/
def sinkStep {H : Type} (s : SinkState H) : SinkOp H → SinkState H
  | .setHandler f => (MenuEvent.set_event_handler s f).1
  | .send e => MenuEvent.send s e

/-- Run a sequence of sink operations. -/
def sinkRun {H : Type} (s : SinkState H) : List (SinkOp H) → SinkState H
  | [] => s
  | op :: ops => sinkRun (sinkStep s op) ops

/-- The events sent (in order) by a sequence of sink operations. -/
def sendsOf {H : Type} : List (SinkOp H) → List MenuEvent
  | [] => []
  | .setHandler _ :: ops => sendsOf ops
  | .send e :: ops => e :: sendsOf ops

theorem set_event_handler_committed {H : Type} (s : SinkState H) (v : Option H)
    (f : Option H) (h : s.handlerSlot = some v) :
    (MenuEvent.set_event_handler s f).1 = s := by
  obtain ⟨slot, q, hd⟩ := s
  change slot = some v at h
  subst h
  rfl

theorem send_committed_some {H : Type} (s : SinkState H) (hd : H) (e : MenuEvent)
    (h : s.handlerSlot = some (some hd)) :
    MenuEvent.send s e = { s with handled := s.handled ++ [(hd, e)] } := by
  simp [MenuEvent.send, h]

theorem send_committed_none {H : Type} (s : SinkState H) (e : MenuEvent)
    (h : s.handlerSlot = some none) :
    MenuEvent.send s e = { s with queue := s.queue ++ [e] } := by
  simp [MenuEvent.send, h]

theorem sinkRun_committed_some {H : Type} (ops : List (SinkOp H)) :
    ∀ (s : SinkState H) (hd : H), s.handlerSlot = some (some hd) →
      (sinkRun s ops).handlerSlot = some (some hd) ∧
      (sinkRun s ops).queue = s.queue := by
  induction ops with
  | nil => intro s hd h; exact ⟨h, rfl⟩
  | cons op ops ih =>
      intro s hd h
      cases op with
      | setHandler f =>
          have hstep : sinkStep s (SinkOp.setHandler f) = s :=
            set_event_handler_committed s (some hd) f h
          simpa [sinkRun, hstep] using ih s hd h
      | send e =>
          have hstep : sinkStep s (SinkOp.send e)
              = { s with handled := s.handled ++ [(hd, e)] } :=
            send_committed_some s hd e h
          have := ih { s with handled := s.handled ++ [(hd, e)] } hd h
          simpa [sinkRun, hstep] using this

theorem sinkRun_committed_none {H : Type} (ops : List (SinkOp H)) :
    ∀ s : SinkState H, s.handlerSlot = some none →
      (sinkRun s ops).handlerSlot = some none ∧
      (sinkRun s ops).queue = s.queue ++ sendsOf ops := by
  induction ops with
  | nil => intro s h; exact ⟨h, by simp [sinkRun, sendsOf]⟩
  | cons op ops ih =>
      intro s h
      cases op with
      | setHandler f =>
          have hstep : sinkStep s (SinkOp.setHandler f) = s :=
            set_event_handler_committed s none f h
          simpa [sinkRun, hstep, sendsOf] using ih s h
      | send e =>
          have hstep : sinkStep s (SinkOp.send e)
              = { s with queue := s.queue ++ [e] } :=
            send_committed_none s e h
          have := ih { s with queue := s.queue ++ [e] } h
          rw [sinkRun, hstep]
          refine ⟨this.1, ?_⟩
          rw [this.2]
          simp [sendsOf]

/-- The crate error type, from `src/error.rs`; the `AcceleratorParseError`
payload (crate module `accelerator`, not under the verified sources) is
represented by its message string. -/
inductive Error where
  | NotAChildOfThisMenu
  | NotInitialized
  | AlreadyInitialized
  | AcceleratorParseError (msg : String)
deriving DecidableEq, Repr

/-- The window menu bar theme, from `src/menu.rs` (`pub enum MenuTheme`). -/
inductive MenuTheme where
  | Dark
  | Light
  | Auto
deriving DecidableEq, Repr

/-- Modelled from the spec: `AddOp` (crate module `util`, not under the
verified sources), the position selector `src/menu.rs` passes to
`platform_impl::Menu::add_menu_item` (`AddOp::Append` from `append`,
`AddOp::Insert(position)` from `prepend` and `insert`). -/
inductive AddOp where
  | Append
  | Insert (position : Nat)
deriving DecidableEq, Repr

/-- Modelled from the spec: the state of `platform_impl::Menu` (not under
the verified sources) that the claims depend on — the ordered child
sequence (the authoritative in-memory model) and the set of window handles
with a live attachment.  The menu's own auto-generated `MenuId` and the
native handles play no role in the claims and are not represented. -/
structure MenuState where
  children : List MenuItemKind
  attached : List Int
deriving DecidableEq, Repr

/-- Modelled from the spec: `platform_impl::Menu::add_menu_item` — `Append`
puts the item at the end of the child sequence, `Insert position` puts it
at that index, degrading to append when the position is at or past the
end. -/
def MenuState.add_menu_item (s : MenuState) (item : MenuItemKind) (op : AddOp) :
    MenuState :=
  match op with
  | AddOp.Append => { s with children := s.children ++ [item] }
  | AddOp.Insert position =>
      { s with children :=
          s.children.take position ++ item :: s.children.drop position }

/-- Modelled from the spec: deletion of the tracked occurrence — the first
child whose `MenuId` is the one of the removed item (identity is the
`MenuId`); the sequence is unchanged when no child carries that id. -/
def removeFirstChild (item : MenuItemKind) : List MenuItemKind → List MenuItemKind
  | [] => []
  | c :: rest =>
      if c.id = item.id then rest else c :: removeFirstChild item rest

/-- Modelled from the spec: `platform_impl::Menu::remove` — fails with
`NotAChildOfThisMenu` when no child carries the item's id, otherwise
deletes the tracked occurrence. -/
def MenuState.remove (s : MenuState) (item : MenuItemKind) : Except Error MenuState :=
  if item.id ∈ s.children.map MenuItemKind.id then
    Except.ok { s with children := removeFirstChild item s.children }
  else
    Except.error Error.NotAChildOfThisMenu

/-- `Menu::new` from `src/menu.rs`: a fresh menu with no children and no
attachments. -/
def Menu.new : MenuState :=
  { children := [], attached := [] }

/-- `Menu::append` from `src/menu.rs`: delegates to `add_menu_item` with
`AddOp::Append`. -/
def Menu.append (s : MenuState) (item : MenuItemKind) : MenuState :=
  s.add_menu_item item AddOp.Append

/-- `Menu::prepend` from `src/menu.rs`: delegates to `add_menu_item` with
`AddOp::Insert(0)`. -/
def Menu.prepend (s : MenuState) (item : MenuItemKind) : MenuState :=
  s.add_menu_item item (AddOp.Insert 0)

/-- `Menu::insert` from `src/menu.rs`: delegates to `add_menu_item` with
`AddOp::Insert(position)`. -/
def Menu.insert (s : MenuState) (item : MenuItemKind) (position : Nat) : MenuState :=
  s.add_menu_item item (AddOp.Insert position)

/-- `Menu::remove` from `src/menu.rs`: delegates to the platform remove. -/
def Menu.remove (s : MenuState) (item : MenuItemKind) : Except Error MenuState :=
  s.remove item

/-- `Menu::items` from `src/menu.rs`: the current child sequence. -/
def Menu.items (s : MenuState) : List MenuItemKind :=
  s.children

/-- `Menu::remove_at` from `src/menu.rs`: takes a snapshot of `items()`,
returns `None` when `position` is out of range, otherwise extracts the item
at `position` from the snapshot, removes it from the menu (the source
discards the `Result` of that inner `remove`) and returns it. -/
def Menu.remove_at (s : MenuState) (position : Nat) :
    Option MenuItemKind × MenuState :=
  let items := Menu.items s
  match items[position]? with
  | some item =>
      let s2 := match Menu.remove s item with
        | Except.ok s2 => s2
        | Except.error _ => s
      (some item, s2)
  | none => (none, s)

/-- Modelled from the spec: `platform_impl::Menu::init_for_hwnd` (behind
`Menu::init_for_hwnd` of `src/menu.rs`) — attaching to a window that
already has a live attachment fails with `AlreadyInitialized`, otherwise
the window gains a live attachment. -/
def Menu.init_for_hwnd (s : MenuState) (hwnd : Int) : Except Error MenuState :=
  if hwnd ∈ s.attached then Except.error Error.AlreadyInitialized
  else Except.ok { s with attached := hwnd :: s.attached }

/-- Modelled from the spec: `platform_impl::Menu::remove_for_hwnd` (behind
`Menu::remove_for_hwnd` of `src/menu.rs`) — detaching a window with no
live attachment fails with `NotInitialized`, otherwise the attachment is
removed. -/
def Menu.remove_for_hwnd (s : MenuState) (hwnd : Int) : Except Error MenuState :=
  if hwnd ∈ s.attached then Except.ok { s with attached := s.attached.erase hwnd }
  else Except.error Error.NotInitialized

/-- Modelled from the spec: `platform_impl::Menu::set_theme_for_hwnd`
(behind `Menu::set_theme_for_hwnd` of `src/menu.rs`) — an
attachment-scoped operation, failing with `NotInitialized` when the window
has no live attachment; the theme itself is applied natively and leaves
the modelled state unchanged. -/
def Menu.set_theme_for_hwnd (s : MenuState) (hwnd : Int) (_theme : MenuTheme) :
    Except Error MenuState :=
  if hwnd ∈ s.attached then Except.ok s else Except.error Error.NotInitialized

/-- Modelled from the spec: `platform_impl::Menu::hide_for_hwnd` (behind
`Menu::hide_for_hwnd` of `src/menu.rs`) — attachment-scoped, failing with
`NotInitialized` when the window has no live attachment. -/
def Menu.hide_for_hwnd (s : MenuState) (hwnd : Int) : Except Error MenuState :=
  if hwnd ∈ s.attached then Except.ok s else Except.error Error.NotInitialized

/-- Modelled from the spec: `platform_impl::Menu::show_for_hwnd` (behind
`Menu::show_for_hwnd` of `src/menu.rs`) — attachment-scoped, failing with
`NotInitialized` when the window has no live attachment. -/
def Menu.show_for_hwnd (s : MenuState) (hwnd : Int) : Except Error MenuState :=
  if hwnd ∈ s.attached then Except.ok s else Except.error Error.NotInitialized

/-- One structural operation on a container, as offered by `src/menu.rs`. -/
inductive ContainerOp where
  | append (item : MenuItemKind)
  | prepend (item : MenuItemKind)
  | insert (item : MenuItemKind) (position : Nat)
  | remove (item : MenuItemKind)
deriving DecidableEq, Repr

/-- Apply one container operation through the `src/menu.rs` API; a failing
`remove` leaves the menu unchanged. -/
def applyOp (s : MenuState) : ContainerOp → MenuState
  | ContainerOp.append item => Menu.append s item
  | ContainerOp.prepend item => Menu.prepend s item
  | ContainerOp.insert item position => Menu.insert s item position
  | ContainerOp.remove item =>
      match Menu.remove s item with
      | Except.ok s2 => s2
      | Except.error _ => s

/-- Run a sequence of container operations through the `src/menu.rs` API. -/
def runOps (s : MenuState) : List ContainerOp → MenuState
  | [] => s
  | op :: ops => runOps (applyOp s op) ops

/-- Reference list model, following the spec's words: `remove` deletes the
tracked occurrence — the first element with the removed item's id — and
does nothing when the item is absent. -/
def refRemove (item : MenuItemKind) : List MenuItemKind → List MenuItemKind
  | [] => []
  | c :: rest =>
      if c.id = item.id then rest else c :: refRemove item rest

/-- Reference list model, following the spec's words: append at the end,
prepend at index 0, insert at the given index (appending when the position
is at or past the end), remove deletes the tracked occurrence. -/
def refApplyOp (l : List MenuItemKind) : ContainerOp → List MenuItemKind
  | ContainerOp.append item => l ++ [item]
  | ContainerOp.prepend item => item :: l
  | ContainerOp.insert item position =>
      if l.length ≤ position then l ++ [item]
      else l.take position ++ item :: l.drop position
  | ContainerOp.remove item => refRemove item l

/-- Run a sequence of container operations on the reference list model. -/
def refRunOps (l : List MenuItemKind) : List ContainerOp → List MenuItemKind
  | [] => l
  | op :: ops => refRunOps (refApplyOp l op) ops

/-- A sample concrete item used by witness and counterexample instances. -/
def itemA : MenuItemKind :=
  MenuItemKind.MenuItem { id := { val := "a" } }

/-- A second sample concrete item with a distinct id. -/
def itemB : MenuItemKind :=
  MenuItemKind.Check { id := { val := "b" } }

theorem refRemove_eq_removeFirstChild (item : MenuItemKind) (l : List MenuItemKind) :
    refRemove item l = removeFirstChild item l := by
  induction l with
  | nil => rfl
  | cons c rest ih => simp [refRemove, removeFirstChild, ih]

theorem removeFirstChild_absent (item : MenuItemKind) (l : List MenuItemKind)
    (h : item.id ∉ l.map MenuItemKind.id) :
    removeFirstChild item l = l := by
  induction l with
  | nil => rfl
  | cons c rest ih =>
      simp only [List.map_cons, List.mem_cons, not_or] at h
      have hne : ¬c.id = item.id := fun he => h.1 he.symm
      simp [removeFirstChild, hne, ih h.2]

theorem removeFirstChild_length (item : MenuItemKind) (l : List MenuItemKind)
    (h : item.id ∈ l.map MenuItemKind.id) :
    (removeFirstChild item l).length + 1 = l.length := by
  induction l with
  | nil => simp at h
  | cons c rest ih =>
      by_cases hc : c.id = item.id
      · simp [removeFirstChild, hc]
      · have hr : item.id ∈ rest.map MenuItemKind.id := by
          simp only [List.map_cons, List.mem_cons] at h
          rcases h with h | h
          · exact absurd h.symm hc
          · exact h
        simp [removeFirstChild, hc, ← ih hr]

theorem removeFirstChild_sublist (item : MenuItemKind) (l : List MenuItemKind) :
    (removeFirstChild item l).Sublist l := by
  induction l with
  | nil => simp [removeFirstChild]
  | cons c rest ih =>
      by_cases hc : c.id = item.id
      · simp [removeFirstChild, hc]
      · simpa [removeFirstChild, hc] using ih.cons₂ c

theorem removeFirstChild_count (item : MenuItemKind) (l : List MenuItemKind)
    (h : item.id ∈ l.map MenuItemKind.id) :
    ((removeFirstChild item l).map MenuItemKind.id).count item.id + 1
      = (l.map MenuItemKind.id).count item.id := by
  induction l with
  | nil => simp at h
  | cons c rest ih =>
      by_cases hc : c.id = item.id
      · simp [removeFirstChild, hc, List.count_cons]
      · have hr : item.id ∈ rest.map MenuItemKind.id := by
          simp only [List.map_cons, List.mem_cons] at h
          rcases h with h | h
          · exact absurd h.symm hc
          · exact h
        have hne : ¬(item.id = c.id) := fun he => hc he.symm
        simp [removeFirstChild, hc, List.count_cons, hne, ih hr]

theorem items_applyOp (s : MenuState) (op : ContainerOp) :
    Menu.items (applyOp s op) = refApplyOp (Menu.items s) op := by
  cases op with
  | append item => rfl
  | prepend item =>
      simp [applyOp, Menu.prepend, MenuState.add_menu_item, refApplyOp, Menu.items]
  | insert item position =>
      by_cases hp : s.children.length ≤ position
      · simp [applyOp, Menu.insert, MenuState.add_menu_item, refApplyOp, Menu.items, hp,
          List.take_of_length_le hp, List.drop_of_length_le hp]
      · simp [applyOp, Menu.insert, MenuState.add_menu_item, refApplyOp, Menu.items, hp]
  | remove item =>
      by_cases hm : item.id ∈ s.children.map MenuItemKind.id
      · simp [applyOp, Menu.remove, MenuState.remove, hm, Menu.items,
          refApplyOp, refRemove_eq_removeFirstChild]
      · simp [applyOp, Menu.remove, MenuState.remove, hm, Menu.items, refApplyOp,
          refRemove_eq_removeFirstChild, removeFirstChild_absent item s.children hm]

theorem runOps_refines (ops : List ContainerOp) :
    ∀ s : MenuState, Menu.items (runOps s ops) = refRunOps (Menu.items s) ops := by
  induction ops with
  | nil => intro s; rfl
  | cons op ops ih =>
      intro s
      rw [runOps, refRunOps, ih, items_applyOp]

/-- C5: for every finite sequence of append, prepend, insert and remove
operations applied starting from `Menu::new()`, the sequence returned by
`items()` equals the one produced by the reference list model (append at
end, prepend at index 0, insert at the given index with out-of-range
degrading to append, remove deleting the tracked occurrence) under the
same operations in the same order. -/
theorem menu_ops_match_reference_model (ops : List ContainerOp) :
    Menu.items (runOps Menu.new ops) = refRunOps [] ops :=
  runOps_refines ops Menu.new

/-- C6: `Menu::insert(item, position)` with `position ≥ items().len()` has
the same result and the same effect on the child sequence as
`Menu::append(item)`. -/
theorem insert_out_of_range_is_append (s : MenuState) (item : MenuItemKind)
    (position : Nat) (h : (Menu.items s).length ≤ position) :
    Menu.insert s item position = Menu.append s item := by
  have h2 : s.children.length ≤ position := h
  simp [Menu.insert, Menu.append, MenuState.add_menu_item,
    List.take_of_length_le h2, List.drop_of_length_le h2]

/-- C6 witness: on the empty menu, inserting at position 3 is appending. -/
theorem insert_out_of_range_is_append_witness :
    Menu.insert Menu.new itemA 3 = Menu.append Menu.new itemA :=
  insert_out_of_range_is_append Menu.new itemA 3 (by decide)

/-- C4: in queue mode (no handler ever installed), events sent in order are
received by successive `try_recv` calls in the same order, and `try_recv`
on an empty queue reports nothing available without blocking. -/
theorem queue_mode_fifo_delivery (e1 e2 e3 : MenuEvent) :
    (MenuEventReceiver.try_recv (initialSink (H := Unit))).1 = none ∧
    (MenuEventReceiver.try_recv (initialSink (H := Unit))).2 = initialSink ∧
    (MenuEventReceiver.try_recv (sinkRun (initialSink (H := Unit))
        [SinkOp.send e1, SinkOp.send e2, SinkOp.send e3])).1 = some e1 ∧
    (MenuEventReceiver.try_recv (MenuEventReceiver.try_recv
        (sinkRun (initialSink (H := Unit))
          [SinkOp.send e1, SinkOp.send e2, SinkOp.send e3])).2).1 = some e2 ∧
    (MenuEventReceiver.try_recv (MenuEventReceiver.try_recv (MenuEventReceiver.try_recv
        (sinkRun (initialSink (H := Unit))
          [SinkOp.send e1, SinkOp.send e2, SinkOp.send e3])).2).2).1 = some e3 ∧
    (MenuEventReceiver.try_recv (MenuEventReceiver.try_recv (MenuEventReceiver.try_recv
        (MenuEventReceiver.try_recv (sinkRun (initialSink (H := Unit))
          [SinkOp.send e1, SinkOp.send e2, SinkOp.send e3])).2).2).2).1 = none :=
  ⟨rfl, rfl, rfl, rfl, rfl, rfl⟩

/-- C10: for every `MenuItemKind` and each of the five variants, the safe
downcast returns `some` of the wrapped item exactly when the value wraps
that variant and `none` otherwise, and the unchecked downcast panics
(embedded as `Except.error`) exactly when the value does not wrap that
variant, returning the wrapped item under the variant precondition. -/
theorem menu_item_kind_downcasts (k : MenuItemKind) :
    (∀ i, as_menuitem k = some i ↔ k = MenuItemKind.MenuItem i) ∧
    (as_menuitem k = none ↔ ¬∃ i, k = MenuItemKind.MenuItem i) ∧
    (∀ i, as_menuitem_unchecked k = Except.ok i ↔ k = MenuItemKind.MenuItem i) ∧
    ((∃ msg, as_menuitem_unchecked k = Except.error msg) ↔
      ¬∃ i, k = MenuItemKind.MenuItem i) ∧
    (∀ i, as_submenu k = some i ↔ k = MenuItemKind.Submenu i) ∧
    (as_submenu k = none ↔ ¬∃ i, k = MenuItemKind.Submenu i) ∧
    (∀ i, as_submenu_unchecked k = Except.ok i ↔ k = MenuItemKind.Submenu i) ∧
    ((∃ msg, as_submenu_unchecked k = Except.error msg) ↔
      ¬∃ i, k = MenuItemKind.Submenu i) ∧
    (∀ i, as_predefined_menuitem k = some i ↔ k = MenuItemKind.Predefined i) ∧
    (as_predefined_menuitem k = none ↔ ¬∃ i, k = MenuItemKind.Predefined i) ∧
    (∀ i, as_predefined_menuitem_unchecked k = Except.ok i ↔
      k = MenuItemKind.Predefined i) ∧
    ((∃ msg, as_predefined_menuitem_unchecked k = Except.error msg) ↔
      ¬∃ i, k = MenuItemKind.Predefined i) ∧
    (∀ i, as_check_menuitem k = some i ↔ k = MenuItemKind.Check i) ∧
    (as_check_menuitem k = none ↔ ¬∃ i, k = MenuItemKind.Check i) ∧
    (∀ i, as_check_menuitem_unchecked k = Except.ok i ↔ k = MenuItemKind.Check i) ∧
    ((∃ msg, as_check_menuitem_unchecked k = Except.error msg) ↔
      ¬∃ i, k = MenuItemKind.Check i) ∧
    (∀ i, as_icon_menuitem k = some i ↔ k = MenuItemKind.Icon i) ∧
    (as_icon_menuitem k = none ↔ ¬∃ i, k = MenuItemKind.Icon i) ∧
    (∀ i, as_icon_menuitem_unchecked k = Except.ok i ↔ k = MenuItemKind.Icon i) ∧
    ((∃ msg, as_icon_menuitem_unchecked k = Except.error msg) ↔
      ¬∃ i, k = MenuItemKind.Icon i) := by
  cases k <;>
    simp [as_menuitem, as_menuitem_unchecked, as_submenu, as_submenu_unchecked,
      as_predefined_menuitem, as_predefined_menuitem_unchecked,
      as_check_menuitem, as_check_menuitem_unchecked,
      as_icon_menuitem, as_icon_menuitem_unchecked]

/-- C1 (amended): a call of `set_event_handler` with a `Some` handler that
successfully commits (the mode was not yet set) keeps every event sent
afterwards out of the queue exposed by `MenuEvent::receiver`; a call with
`None`, in contrast, commits `None` and every event sent afterwards is
still delivered to the queue. -/
theorem set_some_handler_silences_queue {H : Type} (s : SinkState H) (f : H)
    (h : s.handlerSlot = none) (ops : List (SinkOp H)) :
    (sinkRun (MenuEvent.set_event_handler s (some f)).1 ops).queue = s.queue ∧
    (sinkRun (MenuEvent.set_event_handler s none).1 ops).queue
      = s.queue ++ sendsOf ops := by
  constructor
  · have hslot : (MenuEvent.set_event_handler s (some f)).1.handlerSlot
        = some (some f) := by
      simp [MenuEvent.set_event_handler, h]
    have hq : (MenuEvent.set_event_handler s (some f)).1.queue = s.queue := by
      simp [MenuEvent.set_event_handler]
    have hrun := sinkRun_committed_some ops (MenuEvent.set_event_handler s (some f)).1
      f hslot
    rw [hrun.2, hq]
  · have hslot : (MenuEvent.set_event_handler s none).1.handlerSlot = some none := by
      simp [MenuEvent.set_event_handler, h]
    have hq : (MenuEvent.set_event_handler s none).1.queue = s.queue := by
      simp [MenuEvent.set_event_handler]
    have hrun := sinkRun_committed_none ops (MenuEvent.set_event_handler s none).1 hslot
    rw [hrun.2, hq]

/-- C1 witness: from the fresh sink, committing a `Some` handler keeps a
later send out of the queue, while committing `None` leaves the same send
delivered to the queue. -/
theorem set_some_handler_silences_queue_witness :
    (sinkRun (MenuEvent.set_event_handler (initialSink (H := Unit)) (some ())).1
        [SinkOp.send { id := { val := "save" } }]).queue
      = (initialSink (H := Unit)).queue ∧
    (sinkRun (MenuEvent.set_event_handler (initialSink (H := Unit)) none).1
        [SinkOp.send { id := { val := "save" } }]).queue
      = (initialSink (H := Unit)).queue
          ++ sendsOf (H := Unit) [SinkOp.send { id := { val := "save" } }] :=
  set_some_handler_silences_queue initialSink () rfl
    [SinkOp.send { id := { val := "save" } }]

/-- C1 counterexample: after `set_event_handler(None)` on the fresh sink, an
event passed to `send` is still delivered to the queue — `try_recv` on the
receiver yields it. -/
theorem set_none_handler_queue_still_delivers :
    (MenuEventReceiver.try_recv (MenuEvent.send
        (MenuEvent.set_event_handler (initialSink (H := Unit)) none).1
        { id := { val := "save" } })).1 = some { id := { val := "save" } } :=
  rfl

/-- C2 (amended): after the first call of `set_event_handler` commits, every
later call leaves the sink state unchanged (a silent no-op); when the
committed value is a `Some` handler, the sink never again delivers events
to the queue; a committed `None` leaves queue delivery in place. -/
theorem set_event_handler_first_commit_wins {H : Type} (s t : SinkState H)
    (v : Option H) (hd : H) (f : Option H)
    (hs : s.handlerSlot = some v) (ht : t.handlerSlot = some (some hd))
    (ops : List (SinkOp H)) :
    (MenuEvent.set_event_handler s f).1 = s ∧
    (sinkRun t ops).queue = t.queue :=
  ⟨set_event_handler_committed s v f hs, (sinkRun_committed_some ops t hd ht).2⟩

/-- C2 witness: a sink with a committed `None` ignores a later
`set_event_handler` call, and a sink with a committed `Some` handler keeps
its queue unchanged across a later send. -/
theorem set_event_handler_first_commit_wins_witness :
    (MenuEvent.set_event_handler
        (MenuEvent.set_event_handler (initialSink (H := Unit)) none).1 (some ())).1
      = (MenuEvent.set_event_handler (initialSink (H := Unit)) none).1 ∧
    (sinkRun (MenuEvent.set_event_handler (initialSink (H := Unit)) (some ())).1
        [SinkOp.send { id := { val := "x" } }]).queue
      = (MenuEvent.set_event_handler (initialSink (H := Unit)) (some ())).1.queue :=
  set_event_handler_first_commit_wins
    (MenuEvent.set_event_handler (initialSink (H := Unit)) none).1
    (MenuEvent.set_event_handler (initialSink (H := Unit)) (some ())).1
    none () (some ()) rfl rfl [SinkOp.send { id := { val := "x" } }]

/-- C2 counterexample: the first committing call (here with `None`) does not
switch the sink away from queue delivery — a later `Some` call is a no-op
and a subsequent send is still delivered to the queue. -/
theorem committed_none_keeps_queue_delivery :
    (MenuEvent.send (MenuEvent.set_event_handler
        (MenuEvent.set_event_handler (initialSink (H := Unit)) none).1 (some ())).1
      { id := { val := "x" } }).queue = [{ id := { val := "x" } }] :=
  rfl

/-- C3: a `send` reaching the sink before any `set_event_handler` call
commits `None` into the set-once slot and delivers its event to the queue;
from then on the slot stays `None`, every later `set_event_handler` call
leaves the state unchanged, and every later event sent is delivered to the
queue in order. -/
theorem first_send_latches_queue_mode {H : Type} (s : SinkState H) (e : MenuEvent)
    (h : s.handlerSlot = none) (f : Option H) (ops : List (SinkOp H)) :
    (MenuEvent.send s e).handlerSlot = some none ∧
    (MenuEvent.send s e).queue = s.queue ++ [e] ∧
    (MenuEvent.set_event_handler (MenuEvent.send s e) f).1 = MenuEvent.send s e ∧
    (sinkRun (MenuEvent.send s e) ops).handlerSlot = some none ∧
    (sinkRun (MenuEvent.send s e) ops).queue = (s.queue ++ [e]) ++ sendsOf ops := by
  have h1 : (MenuEvent.send s e).handlerSlot = some none := by
    simp [MenuEvent.send, h]
  have h2 : (MenuEvent.send s e).queue = s.queue ++ [e] := by
    simp [MenuEvent.send, h]
  have hrun := sinkRun_committed_none ops (MenuEvent.send s e) h1
  exact ⟨h1, h2, set_event_handler_committed (MenuEvent.send s e) none f h1,
    hrun.1, by rw [hrun.2, h2]⟩

/-- C3 witness: sending on the fresh sink latches queue mode; a later
`set_event_handler` call has no effect and a later send is queued after the
first event. -/
theorem first_send_latches_queue_mode_witness :
    (MenuEvent.send (initialSink (H := Unit))
        { id := { val := "a" } }).handlerSlot = some none ∧
    (MenuEvent.send (initialSink (H := Unit)) { id := { val := "a" } }).queue
      = (initialSink (H := Unit)).queue ++ [{ id := { val := "a" } }] ∧
    (MenuEvent.set_event_handler
        (MenuEvent.send (initialSink (H := Unit)) { id := { val := "a" } })
        (some ())).1
      = MenuEvent.send (initialSink (H := Unit)) { id := { val := "a" } } ∧
    (sinkRun (MenuEvent.send (initialSink (H := Unit)) { id := { val := "a" } })
        [SinkOp.setHandler (some ()), SinkOp.send { id := { val := "b" } }]).handlerSlot
      = some none ∧
    (sinkRun (MenuEvent.send (initialSink (H := Unit)) { id := { val := "a" } })
        [SinkOp.setHandler (some ()), SinkOp.send { id := { val := "b" } }]).queue
      = ((initialSink (H := Unit)).queue ++ [{ id := { val := "a" } }])
          ++ sendsOf [SinkOp.setHandler (some ()), SinkOp.send { id := { val := "b" } }] :=
  first_send_latches_queue_mode initialSink { id := { val := "a" } } rfl (some ())
    [SinkOp.setHandler (some ()), SinkOp.send { id := { val := "b" } }]

/-- C7: `remove_at` at any position at or past the end returns `none` and
leaves the menu unchanged; at a position in range it returns exactly the
item previously at that position, and the child sequence afterwards is one
element shorter with the remaining items in their prior relative order. -/
theorem remove_at_semantics (s : MenuState) (position k : Nat) :
    Menu.remove_at s ((Menu.items s).length + k) = (none, s) ∧
    (position < (Menu.items s).length →
      ∃ item s2, Menu.remove_at s position = (some item, s2) ∧
        (Menu.items s)[position]? = some item ∧
        (Menu.items s2).length + 1 = (Menu.items s).length ∧
        (Menu.items s2).Sublist (Menu.items s)) := by
  constructor
  · have hnone : (Menu.items s)[(Menu.items s).length + k]? = none :=
      List.getElem?_eq_none (by omega)
    simp [Menu.remove_at, hnone]
  · intro h
    have hsome : (Menu.items s)[position]? = some (Menu.items s)[position] :=
      List.getElem?_eq_getElem h
    have hmemitem : (Menu.items s)[position] ∈ s.children :=
      List.getElem_mem h
    have hmem : ((Menu.items s)[position]).id ∈ s.children.map MenuItemKind.id :=
      List.mem_map_of_mem MenuItemKind.id hmemitem
    have hremove : Menu.remove s ((Menu.items s)[position]) = Except.ok
        { s with children := removeFirstChild ((Menu.items s)[position]) s.children } := by
      simp [Menu.remove, MenuState.remove, hmem]
    refine ⟨(Menu.items s)[position],
      { s with children := removeFirstChild ((Menu.items s)[position]) s.children },
      ?_, hsome, ?_, ?_⟩
    · simp [Menu.remove_at, hsome, hremove]
    · exact removeFirstChild_length ((Menu.items s)[position]) s.children hmem
    · exact removeFirstChild_sublist ((Menu.items s)[position]) s.children

/-- C7 witness: `remove_at` on the empty menu returns `none` unchanged, on a
one-item menu position length + 0 is absent, and `remove_at 0` there
returns that item and empties the sequence. -/
theorem remove_at_semantics_witness :
    Menu.remove_at Menu.new ((Menu.items Menu.new).length + 5) = (none, Menu.new) ∧
    Menu.remove_at (Menu.append Menu.new itemA)
        ((Menu.items (Menu.append Menu.new itemA)).length + 0)
      = (none, Menu.append Menu.new itemA) ∧
    ∃ item s2, Menu.remove_at (Menu.append Menu.new itemA) 0 = (some item, s2) ∧
      (Menu.items (Menu.append Menu.new itemA))[0]? = some item ∧
      (Menu.items s2).length + 1 = (Menu.items (Menu.append Menu.new itemA)).length ∧
      (Menu.items s2).Sublist (Menu.items (Menu.append Menu.new itemA)) :=
  ⟨(remove_at_semantics Menu.new 0 5).1,
   (remove_at_semantics (Menu.append Menu.new itemA) 0 0).1,
   (remove_at_semantics (Menu.append Menu.new itemA) 0 0).2 (by decide)⟩

/-- C8 (amended): `remove` of an item that is not a tracked child fails with
`NotAChildOfThisMenu` and leaves the child sequence unchanged; `remove` of
a tracked child succeeds and deletes exactly one tracked occurrence, so
`items()` afterwards holds that item's id one time fewer (and no longer
contains the item when it was a child exactly once). -/
theorem remove_error_and_occurrence (s : MenuState) (a b : MenuItemKind)
    (ha : a.id ∉ (Menu.items s).map MenuItemKind.id)
    (hb : b.id ∈ (Menu.items s).map MenuItemKind.id) :
    Menu.remove s a = Except.error Error.NotAChildOfThisMenu ∧
    applyOp s (ContainerOp.remove a) = s ∧
    ∃ s2, Menu.remove s b = Except.ok s2 ∧
      ((Menu.items s2).map MenuItemKind.id).count b.id + 1
        = ((Menu.items s).map MenuItemKind.id).count b.id ∧
      (Menu.items s2).Sublist (Menu.items s) := by
  have ha2 : a.id ∉ List.map MenuItemKind.id s.children := ha
  have hb2 : b.id ∈ List.map MenuItemKind.id s.children := hb
  have herr : Menu.remove s a = Except.error Error.NotAChildOfThisMenu := by
    simp only [Menu.remove, MenuState.remove, if_neg ha2]
  refine ⟨herr, by simp [applyOp, herr],
    { s with children := removeFirstChild b s.children }, ?_, ?_, ?_⟩
  · simp only [Menu.remove, MenuState.remove, if_pos hb2]
  · exact removeFirstChild_count b s.children hb
  · exact removeFirstChild_sublist b s.children

/-- C8 witness: on a menu holding only `itemA`, removing `itemB` fails with
`NotAChildOfThisMenu` and removing `itemA` succeeds with one occurrence
fewer. -/
theorem remove_error_and_occurrence_witness :
    Menu.remove (Menu.append Menu.new itemA) itemB
      = Except.error Error.NotAChildOfThisMenu ∧
    applyOp (Menu.append Menu.new itemA) (ContainerOp.remove itemB)
      = Menu.append Menu.new itemA ∧
    ∃ s2, Menu.remove (Menu.append Menu.new itemA) itemA = Except.ok s2 ∧
      ((Menu.items s2).map MenuItemKind.id).count itemA.id + 1
        = ((Menu.items (Menu.append Menu.new itemA)).map MenuItemKind.id).count
            itemA.id ∧
      (Menu.items s2).Sublist (Menu.items (Menu.append Menu.new itemA)) :=
  remove_error_and_occurrence (Menu.append Menu.new itemA) itemB itemA
    (by decide) (by decide)

/-- C8 counterexample: an item appended twice to the same menu is still
contained in `items()` after a successful `remove` — the claim's "no
longer contains" fails on duplicate children. -/
theorem remove_duplicate_child_still_present :
    Menu.remove (Menu.append (Menu.append Menu.new itemA) itemA) itemA
      = Except.ok { children := [itemA], attached := [] } ∧
    itemA ∈ Menu.items { children := [itemA], attached := [] } := by
  constructor
  · rfl
  · simp [Menu.items]

/-- C9: for a window with no live attachment every attachment-scoped
operation (theme setting, hide, show, detach) fails with `NotInitialized`;
attaching succeeds and a second attach without an intervening detach fails
with `AlreadyInitialized`; detach after attach succeeds, after which the
attachment-scoped operations fail with `NotInitialized` again. -/
theorem attachment_state_machine (s : MenuState) (hwnd : Int) (theme : MenuTheme)
    (h : hwnd ∉ s.attached) :
    Menu.set_theme_for_hwnd s hwnd theme = Except.error Error.NotInitialized ∧
    Menu.hide_for_hwnd s hwnd = Except.error Error.NotInitialized ∧
    Menu.show_for_hwnd s hwnd = Except.error Error.NotInitialized ∧
    Menu.remove_for_hwnd s hwnd = Except.error Error.NotInitialized ∧
    ∃ s1, Menu.init_for_hwnd s hwnd = Except.ok s1 ∧
      Menu.init_for_hwnd s1 hwnd = Except.error Error.AlreadyInitialized ∧
      ∃ s2, Menu.remove_for_hwnd s1 hwnd = Except.ok s2 ∧
        Menu.set_theme_for_hwnd s2 hwnd theme = Except.error Error.NotInitialized ∧
        Menu.hide_for_hwnd s2 hwnd = Except.error Error.NotInitialized ∧
        Menu.show_for_hwnd s2 hwnd = Except.error Error.NotInitialized := by
  refine ⟨by simp [Menu.set_theme_for_hwnd, h], by simp [Menu.hide_for_hwnd, h],
    by simp [Menu.show_for_hwnd, h], by simp [Menu.remove_for_hwnd, h],
    { s with attached := hwnd :: s.attached }, by simp [Menu.init_for_hwnd, h],
    by simp [Menu.init_for_hwnd], s, ?_, by simp [Menu.set_theme_for_hwnd, h],
    by simp [Menu.hide_for_hwnd, h], by simp [Menu.show_for_hwnd, h]⟩
  simp [Menu.remove_for_hwnd]

/-- C9 witness: the two-state attachment machine, exercised on the fresh
menu and window handle 1. -/
theorem attachment_state_machine_witness :
    Menu.set_theme_for_hwnd Menu.new 1 MenuTheme.Dark
      = Except.error Error.NotInitialized ∧
    Menu.hide_for_hwnd Menu.new 1 = Except.error Error.NotInitialized ∧
    Menu.show_for_hwnd Menu.new 1 = Except.error Error.NotInitialized ∧
    Menu.remove_for_hwnd Menu.new 1 = Except.error Error.NotInitialized ∧
    ∃ s1, Menu.init_for_hwnd Menu.new 1 = Except.ok s1 ∧
      Menu.init_for_hwnd s1 1 = Except.error Error.AlreadyInitialized ∧
      ∃ s2, Menu.remove_for_hwnd s1 1 = Except.ok s2 ∧
        Menu.set_theme_for_hwnd s2 1 MenuTheme.Dark
          = Except.error Error.NotInitialized ∧
        Menu.hide_for_hwnd s2 1 = Except.error Error.NotInitialized ∧
        Menu.show_for_hwnd s2 1 = Except.error Error.NotInitialized :=
  attachment_state_machine Menu.new 1 MenuTheme.Dark (by decide)
